import Mathlib

/-!
Verification development for the Voxis voice-call backend.

The definitions below are a shallow embedding of the TypeScript services
and routes of the repository:

* `JsPrim`     : the few JavaScript string/number primitives the code uses
                 (`parseInt`, `split`, `startsWith`, truthiness), modelled
                 over `List Char` / `Int`.
* `ElevenLabs` : `src/backend/src/services/elevenLabs.ts`
                 (speech synthesis with mock fallback, file cleanup).
* `Twilio`     : `src/backend/src/services/twilio.ts` (primary telephony
                 adapter: call placement, simulation, status derivation,
                 phone-number formatting, TwiML generation).
* `Exotel`     : the secondary telephony adapter service (call placement,
                 simulation, status derivation, number formatting, ExoML).
* `Routes`     : the express route handlers for `/api/call/place`,
                 `/api/call/status/:callId`, `/api/call/flow` and
                 `/api/voice/cleanup`.

External effects are made explicit parameters: `Date.now()` and
`Math.random()` become arguments, a remote HTTP call becomes an `Option`
outcome argument, and file-system writes and deletions become boolean
success arguments.  A thrown-and-caught exception becomes an `Option`
result.
-/

namespace JsPrim

/-- Digit-string evaluation, most significant digit first. -/
def digitsToNat (l : List Char) : Nat :=
  l.foldl (fun a c => a * 10 + (c.toNat - 48)) 0

/-- JavaScript `parseInt` on a character list (decimal): skip leading
whitespace, read an optional sign, then take the longest digit run;
no digit means `NaN`, modelled as `none`. -/
def parseIntJSL (l : List Char) : Option Int :=
  let l₁ := l.dropWhile (fun c => c = ' ' || c = '\t' || c = '\n' || c = '\r')
  match l₁ with
  | '-' :: r =>
      let ds := r.takeWhile Char.isDigit
      if ds.isEmpty then none else some (-(digitsToNat ds : Int))
  | '+' :: r =>
      let ds := r.takeWhile Char.isDigit
      if ds.isEmpty then none else some (digitsToNat ds : Int)
  | _ =>
      let ds := l₁.takeWhile Char.isDigit
      if ds.isEmpty then none else some (digitsToNat ds : Int)

/-- JavaScript `parseInt` on a string. -/
def parseIntJS (s : String) : Option Int := parseIntJSL s.data

/-- JavaScript `str.split(sep)` for a single-character separator. -/
def splitCh (sep : Char) (l : List Char) : List (List Char) :=
  l.foldr
    (fun c acc =>
      match acc with
      | h :: t => if c = sep then [] :: h :: t else (c :: h) :: t
      | [] => [[c]])
    [[]]

/-- `str.split('_')` as a list of strings. -/
def splitUnderscore (s : String) : List String :=
  (splitCh '_' s.data).map String.mk

/-- JavaScript `s.startsWith(p)`. -/
def jsStartsWith (s p : String) : Bool := p.data.isPrefixOf s.data

/-- Truthiness of an optional string (`undefined` and `""` are falsy). -/
def truthyOpt : Option String → Bool
  | none => false
  | some s => !(s = "")

end JsPrim

open JsPrim

/-! ## Speech synthesis adapter (`elevenLabs.ts`) -/

namespace ElevenLabs

/-- `TTSRequest` from `elevenLabs.ts` (voice settings elided: the adapter
only forwards them opaquely to the remote provider). -/
structure TTSRequest where
  text : String
  voice_id : String
deriving Repr, DecidableEq

/-- `TTSResponse` from `elevenLabs.ts`. -/
structure TTSResponse where
  success : Bool
  audio_url : Option String
  filename : Option String
  error : Option String
deriving Repr, DecidableEq

/-- `generateMockAudio`: writes a fixed stub MP3 under a fresh name;
`writeOk` is the outcome of the `fs.writeFile` call (a throw is caught
and reported as a real failure). -/
def generateMockAudio (uuid : String) (ts : Nat) (writeOk : Bool)
    (_req : TTSRequest) : TTSResponse :=
  let filename := "mock_tts_" ++ uuid ++ "_" ++ Nat.repr ts ++ ".mp3"
  if writeOk then
    { success := true, audio_url := some ("/audio/" ++ filename),
      filename := some filename, error := none }
  else
    { success := false, audio_url := none, filename := none,
      error := some "Failed to generate mock audio" }

/-- `generateSpeech`: when no API key is configured, or the remote TTS
call fails, or saving the real audio file throws, fall back to
`generateMockAudio`; otherwise return the saved file.  `remoteOk` is the
outcome of the provider HTTP call, `writeRealOk` of the real-path
`fs.writeFile`, and `uuidM`/`tsM`/`writeMockOk` belong to the mock path. -/
def generateSpeech (apiKeyConfigured remoteOk : Bool)
    (uuidR : String) (tsR : Nat) (writeRealOk : Bool)
    (uuidM : String) (tsM : Nat) (writeMockOk : Bool)
    (req : TTSRequest) : TTSResponse :=
  if !apiKeyConfigured then
    generateMockAudio uuidM tsM writeMockOk req
  else if !remoteOk then
    generateMockAudio uuidM tsM writeMockOk req
  else
    let filename := "tts_" ++ uuidR ++ "_" ++ Nat.repr tsR ++ ".mp3"
    if writeRealOk then
      { success := true, audio_url := some ("/audio/" ++ filename),
        filename := some filename, error := none }
    else
      generateMockAudio uuidM tsM writeMockOk req

/-- One stored audio file: name and last-modified epoch milliseconds. -/
structure FileEnt where
  name : String
  mtime : Int
deriving Repr, DecidableEq

/-- `cleanupOldFiles`: walk the directory, delete each file strictly
older than `maxAgeHours` hours.  `fsOk f` is the combined outcome of the
`fs.stat`/`fs.remove` calls for file `f`; a throw is caught by the
`try` that wraps the whole loop, so it stops the sweep (remaining files
untouched) but is not raised to the caller.  Returns the surviving files. -/
def cleanupOldFiles (maxAgeHours : Int) (now : Int) (fsOk : String → Bool) :
    List FileEnt → List FileEnt
  | [] => []
  | f :: rest =>
    if !(fsOk f.name) then f :: rest
    else if now - f.mtime > maxAgeHours * 3600000 then
      cleanupOldFiles maxAgeHours now fsOk rest
    else
      f :: cleanupOldFiles maxAgeHours now fsOk rest

end ElevenLabs

/-! ## Primary telephony adapter (`twilio.ts`) -/

namespace Twilio

/-- `TwilioCallRequest` from `twilio.ts`. -/
structure TwilioCallRequest where
  to_number : String
  audio_url : String
  caller_id : Option String
deriving Repr, DecidableEq

/-- `TwilioCallResponse` from `twilio.ts`.  Note: this interface has no
`simulation` field. -/
structure TwilioCallResponse where
  success : Bool
  call_id : Option String
  message : Option String
  error : Option String
deriving Repr, DecidableEq

/-- `TwilioCallStatus` from `twilio.ts`; the source fields `from` and
`to` are spelled `fromNumber` and `toNumber` here (`from` is a Lean
keyword). -/
structure TwilioCallStatus where
  call_id : String
  status : String
  duration : Option Int
  direction : Option String
  fromNumber : Option String
  toNumber : Option String
deriving Repr, DecidableEq

/-- Characters removed by `formatPhoneNumber`: the regex `[\s\-\(\)]`. -/
def isStrippedChar (c : Char) : Bool :=
  c = ' ' || c = '\t' || c = '\n' || c = '\r' || c = '\x0b' || c = '\x0c' ||
  c = '-' || c = '(' || c = ')'

/-- `TwilioService.formatPhoneNumber`: drop spaces, dashes and
parentheses; keep a `+`-prefixed number as is; otherwise infer a country
code (10 digits starting 6-9 → `+91`, 11 digits starting 1 → `+`,
anything else → `+1`). -/
def formatPhoneNumber (phoneNumber : String) : String :=
  let cleaned := String.mk (phoneNumber.data.filter (fun c => !(isStrippedChar c)))
  if jsStartsWith cleaned "+" then cleaned
  else if cleaned.length = 10 &&
      (match cleaned.data with
       | c :: _ => '6' ≤ c && c ≤ '9'
       | [] => false) then
    "+91" ++ cleaned
  else if cleaned.length = 11 && jsStartsWith cleaned "1" then
    "+" ++ cleaned
  else
    "+1" ++ cleaned

/-- The simulated call identifier built by `simulateCall`:
`sim_twilio_<Date.now()>_<random>`. -/
def simCallId (ts : Nat) (rand : String) : String :=
  "sim_twilio_" ++ Nat.repr ts ++ "_" ++ rand

/-- `simulateCall`: always succeeds with a `sim_twilio_` identifier; the
interval-based status progression it starts is log-only and carries no
state, so it is not modelled. -/
def simulateCall (ts : Nat) (rand : String) (request : TwilioCallRequest) :
    TwilioCallResponse :=
  { success := true,
    call_id := some (simCallId ts rand),
    message := some ("Simulated call to " ++ request.to_number),
    error := none }

/-- `placeCall`: with no client, simulate; with a client, a successful
provider call (`remote = some sid`) returns the provider SID, and a
thrown provider error (`remote = none`) is caught and also falls back to
simulation. -/
def placeCall (hasClient : Bool) (remote : Option String)
    (ts : Nat) (rand : String) (request : TwilioCallRequest) :
    TwilioCallResponse :=
  if !hasClient then simulateCall ts rand request
  else
    match remote with
    | some sid =>
      { success := true, call_id := some sid,
        message := some ("Call placed successfully to " ++
          formatPhoneNumber request.to_number),
        error := none }
    | none => simulateCall ts rand request

/-- First 50 characters of the text with a trailing ellipsis when
longer, as interpolated into the simulated-call message. -/
def preview50 (text : String) : String :=
  String.mk (text.data.take 50) ++ (if text.length > 50 then "..." else "")

/-- `simulateCallWithText`: note the identifier is `sim_<ts>_<rand>`,
without the `twilio` infix used by `simulateCall`. -/
def simulateCallWithText (text to_number : String) (ts : Nat) (rand : String) :
    TwilioCallResponse :=
  { success := true,
    call_id := some ("sim_" ++ Nat.repr ts ++ "_" ++ rand),
    message := some ("Simulated call with custom text placed to " ++ to_number ++
      ". In a real scenario, this would read: \"" ++ preview50 text ++ "\""),
    error := none }

/-- `placeCallWithText`: same fallback shape as `placeCall`, but the
simulated path is `simulateCallWithText`. -/
def placeCallWithText (hasClient : Bool) (remote : Option String)
    (text to_number : String) (ts : Nat) (rand : String) :
    TwilioCallResponse :=
  if !hasClient then simulateCallWithText text to_number ts rand
  else
    match remote with
    | some sid =>
      { success := true, call_id := some sid,
        message := some ("Call placed successfully to " ++
          formatPhoneNumber to_number ++ " with custom message"),
        error := none }
    | none => simulateCallWithText text to_number ts rand

/-- The timestamp a status lookup recovers from a simulated id:
`parseInt(callId.split('_')[2])`; `none` models `NaN`. -/
def simIdTimestamp (callId : String) : Option Int :=
  match (splitCh '_' callId.data).get? 2 with
  | none => none
  | some seg => parseIntJSL seg

/-- The elapsed-time-to-status map of `getSimulatedCallStatus`. -/
def statusOfElapsed (elapsed : Int) : String :=
  if elapsed > 8000 then "completed"
  else if elapsed > 6000 then "in-progress"
  else if elapsed > 2000 then "ringing"
  else "queued"

/-- `getSimulatedCallStatus` in the unconfigured environment (so
`from` is the literal fallback number).  A non-`sim_twilio_` id yields
`null`.  When the embedded timestamp does not parse, `elapsed` is `NaN`,
every comparison is false, and the function still fabricates a `queued`
status with no duration. -/
def getSimulatedCallStatus (callId : String) (now : Int) :
    Option TwilioCallStatus :=
  if !(jsStartsWith callId "sim_twilio_") then none
  else
    match simIdTimestamp callId with
    | none =>
      some { call_id := callId, status := "queued", duration := none,
             direction := some "outbound-api",
             fromNumber := some "+14722138384",
             toNumber := some "+919024266007" }
    | some ts =>
      let elapsed := now - ts
      let status := statusOfElapsed elapsed
      some { call_id := callId, status := status,
             duration := if status = "completed" then some (elapsed / 1000) else none,
             direction := some "outbound-api",
             fromNumber := some "+14722138384",
             toNumber := some "+919024266007" }

/-- `getCallStatus` in the unconfigured environment: no client, so it
always answers from the simulation. -/
def getCallStatus (callId : String) (now : Int) : Option TwilioCallStatus :=
  getSimulatedCallStatus callId now

end Twilio

/-! ## Secondary telephony adapter (exotel service) -/

namespace Exotel

/-- `CallRequest` from the exotel service. -/
structure CallRequest where
  to_number : String
  audio_url : String
  caller_id : Option String
deriving Repr, DecidableEq

/-- `CallResponse` from the exotel service; unlike the primary adapter
it carries an optional `simulation` marker. -/
structure CallResponse where
  success : Bool
  call_id : Option String
  status : Option String
  message : Option String
  error : Option String
  simulation : Option Bool
deriving Repr, DecidableEq

/-- `CallStatus` from the exotel service.  `start_time` and `end_time`
are `Date` values, modelled as epoch milliseconds. -/
structure CallStatus where
  call_id : String
  status : String
  duration : Option Int
  start_time : Option Int
  end_time : Option Int
deriving Repr, DecidableEq

/-- `isValidPhoneNumber`: 10 to 15 digits once non-digits are removed. -/
def isValidPhoneNumber (phoneNumber : String) : Bool :=
  let cleaned := phoneNumber.data.filter Char.isDigit
  10 ≤ cleaned.length && cleaned.length ≤ 15

/-- `ExotelService.formatPhoneNumber`: strip non-digits, prepend the
default country code `91` to a bare 10-digit number, and prepend `+`. -/
def formatPhoneNumber (phoneNumber : String) : String :=
  let cleaned := String.mk (phoneNumber.data.filter Char.isDigit)
  let cleaned := if cleaned.length = 10 then "91" ++ cleaned else cleaned
  "+" ++ cleaned

/-- The simulated call identifier built by `simulateCall`:
`sim_<Date.now()>_<random>`. -/
def simCallId (ts : Nat) (rand : String) : String :=
  "sim_" ++ Nat.repr ts ++ "_" ++ rand

/-- `simulateCall`: always succeeds, with `simulation: true`; the four
`setTimeout` log lines carry no state and are not modelled. -/
def simulateCall (ts : Nat) (rand : String) (_request : CallRequest) :
    CallResponse :=
  { success := true,
    call_id := some (simCallId ts rand),
    status := some "initiated",
    message := some "Call simulation started successfully",
    error := none,
    simulation := some true }

/-- `placeCall`: unconfigured → simulate; configured but invalid number
→ the thrown validation error is caught and also ends in simulation;
otherwise the provider outcome decides (`remote = none` models any
thrown HTTP error, again caught into simulation). -/
def placeCall (configured : Bool) (remote : Option (String × String))
    (ts : Nat) (rand : String) (request : CallRequest) : CallResponse :=
  if !configured then simulateCall ts rand request
  else if !(isValidPhoneNumber request.to_number) then
    simulateCall ts rand request
  else
    match remote with
    | some (sid, st) =>
      { success := true, call_id := some sid, status := some st,
        message := some "Call initiated successfully",
        error := none, simulation := none }
    | none => simulateCall ts rand request

/-- The timestamp recovered from a simulated id:
`parseInt(callId.split('_')[1])`; `none` models `NaN`. -/
def simIdTimestamp (callId : String) : Option Int :=
  match (splitCh '_' callId.data).get? 1 with
  | none => none
  | some seg => parseIntJSL seg

/-- The elapsed-time-to-status map of `getSimulatedCallStatus`. -/
def statusOfElapsed (elapsed : Int) : String :=
  if elapsed > 15000 then "completed"
  else if elapsed > 5000 then "in-progress"
  else if elapsed > 3000 then "answered"
  else if elapsed > 1000 then "ringing"
  else "initiated"

/-- `getSimulatedCallStatus`: derives the status from the embedded
timestamp.  When that timestamp does not parse (`NaN`),
`new Date(NaN + 5000).toISOString()` throws a `RangeError`; the caller
`getCallStatus` catches it and returns `null`, which is what `none`
models here.  `start_time` is always creation+5s; `end_time` and
`duration` appear only past 15s of elapsed time. -/
def getSimulatedCallStatus (callId : String) (now : Int) :
    Option CallStatus :=
  match simIdTimestamp callId with
  | none => none
  | some ts =>
    let elapsed := now - ts
    some { call_id := callId,
           status := statusOfElapsed elapsed,
           duration := if elapsed > 15000 then some ((elapsed - 5000) / 1000) else none,
           start_time := some (ts + 5000),
           end_time := if elapsed > 15000 then some (ts + 15000) else none }

/-- `getCallStatus` in the unconfigured environment: answers from the
simulation. -/
def getCallStatus (callId : String) (now : Int) : Option CallStatus :=
  getSimulatedCallStatus callId now

/-- The markup before the embedded audio URL in `generateCallFlowXML`. -/
def callFlowXMLIntro : String :=
  "<?xml version=\"1.0\" encoding=\"UTF-8\"?>\n<Response>\n    <Say voice=\"woman\">Hello! I will now play your AI generated message.</Say>\n    <Pause length=\"1\"/>\n    <Play>"

/-- The markup after the embedded audio URL in `generateCallFlowXML`. -/
def callFlowXMLOutro : String :=
  "</Play>\n    <Say voice=\"woman\">Thank you for using Voice Over AI Agent. Goodbye!</Say>\n</Response>"

/-- `generateCallFlowXML`: embeds the audio URL verbatim between the
fixed intro/outro markup.  No character of the URL is escaped or
stripped. -/
def generateCallFlowXML (audioUrl : String) : String :=
  callFlowXMLIntro ++ audioUrl ++ callFlowXMLOutro

end Exotel

/-! ## Custom TwiML generation (`generateCustomTwiML` in `twilio.ts`) -/

namespace Twilio

/-- The character class of the regex `\s` (ASCII part). -/
def isJsWs (c : Char) : Bool :=
  c = ' ' || c = '\t' || c = '\n' || c = '\r' || c = '\x0b' || c = '\x0c'

/-- Collapse adjacent spaces to one, keeping everything else.  After
every whitespace character has been mapped to a space, this is exactly
the effect of the regex replacement of runs of whitespace by a single
space. -/
def dedupSpaces : List Char → List Char
  | [] => []
  | [c] => [c]
  | a :: b :: rest =>
    if a = ' ' && b = ' ' then dedupSpaces (b :: rest)
    else a :: dedupSpaces (b :: rest)

/-- `String.prototype.trim` once all whitespace is a plain space. -/
def trimSpaces (l : List Char) : List Char :=
  ((l.dropWhile (fun c => c = ' ')).reverse.dropWhile (fun c => c = ' ')).reverse

/-- The text-cleaning chain of `generateCustomTwiML`:
remove `[<>&]`, turn newlines into spaces, collapse whitespace runs to
single spaces (modelled as mapping every whitespace character to a space
and then deduplicating adjacent spaces), and trim. -/
def cleanTextL (l : List Char) : List Char :=
  let l₁ := l.filter (fun c => !(c = '<' || c = '>' || c = '&'))
  let l₂ := l₁.map (fun c => if c = '\n' then ' ' else c)
  let l₃ := l₂.map (fun c => if isJsWs c then ' ' else c)
  trimSpaces (dedupSpaces l₃)

/-- String-level wrapper of `cleanTextL`. -/
def cleanText (text : String) : String := String.mk (cleanTextL text.data)

/-- The markup before the embedded text in `generateCustomTwiML`. -/
def customTwiMLPre : String :=
  "<?xml version=\"1.0\" encoding=\"UTF-8\"?>\n<Response>\n    <Say voice=\"alice\" rate=\"medium\">\n        Hello! This is your Voice Over AI Agent. Here is your message: "

/-- The markup after the embedded text in `generateCustomTwiML`. -/
def customTwiMLPost : String :=
  ". \n        <break time=\"1s\"/>\n        Thank you for using our service. Goodbye!\n    </Say>\n</Response>"

/-- `generateCustomTwiML`: the cleaned text between the fixed markup. -/
def generateCustomTwiML (text : String) : String :=
  customTwiMLPre ++ cleanText text ++ customTwiMLPost

end Twilio

/-! ## Route handlers -/

namespace Routes

/-- The fields of a call-placement result the `/api/call/place` handler
reads, common to both adapter response types. -/
structure UnifiedResult where
  success : Bool
  call_id : Option String
  message : Option String
  error : Option String
deriving Repr, DecidableEq

/-- View a primary-adapter response through the route. -/
def ofTwilio (r : Twilio.TwilioCallResponse) : UnifiedResult :=
  { success := r.success, call_id := r.call_id,
    message := r.message, error := r.error }

/-- View a secondary-adapter response through the route. -/
def ofExotel (r : Exotel.CallResponse) : UnifiedResult :=
  { success := r.success, call_id := r.call_id,
    message := r.message, error := r.error }

/-- The fallback guard of `/api/call/place`:
`if (!result.success && result.error)`. -/
def usesExotelFallback (r : Twilio.TwilioCallResponse) : Bool :=
  !r.success && truthyOpt r.error

/-- Provider attribution of `/api/call/place`:
`call_id?.startsWith('CA') ? 'twilio' : (call_id?.startsWith('sim_twilio_') ? 'twilio_sim' : 'exotel')`. -/
def providerOf : Option String → String
  | none => "exotel"
  | some cid =>
    if jsStartsWith cid "CA" then "twilio"
    else if jsStartsWith cid "sim_twilio_" then "twilio_sim"
    else "exotel"

/-- The JSON body of a `/api/call/place` response, with its HTTP status. -/
structure PlaceResp where
  httpStatus : Nat
  success : Bool
  call_id : Option String
  message : Option String
  provider : Option String
  error : Option String
deriving Repr, DecidableEq

/-- `POST /api/call/place` (after field validation): try the primary
adapter, fall back to the secondary only when the primary reports a
failure with a truthy error, then attribute the provider from the
resulting identifier prefix.  The adapter effect arguments mirror
`Twilio.placeCall` and `Exotel.placeCall`. -/
def placeCall (hasClient : Bool) (remoteT : Option String)
    (tsT : Nat) (randT : String)
    (exConfigured : Bool) (remoteE : Option (String × String))
    (tsE : Nat) (randE : String)
    (to_number audio_url : String) (caller_id : Option String) : PlaceResp :=
  let r₁ := Twilio.placeCall hasClient remoteT tsT randT
    { to_number := to_number, audio_url := audio_url, caller_id := caller_id }
  let result :=
    if usesExotelFallback r₁ then
      ofExotel (Exotel.placeCall exConfigured remoteE tsE randE
        { to_number := Exotel.formatPhoneNumber to_number,
          audio_url := audio_url, caller_id := caller_id })
    else ofTwilio r₁
  if result.success then
    { httpStatus := 200, success := true, call_id := result.call_id,
      message := result.message, provider := some (providerOf result.call_id),
      error := none }
  else
    { httpStatus := 500, success := false, call_id := none,
      message := none, provider := none,
      error := some (match result.error with
                     | some e => e
                     | none => "Failed to place call") }

/-- `GET /api/call/status/:callId` in the unconfigured environment:
route by identifier prefix to the owning adapter; a `none` from the
adapter becomes HTTP 404, a status becomes HTTP 200. -/
def getStatus (callId : String) (now : Int) :
    Option (Twilio.TwilioCallStatus ⊕ Exotel.CallStatus) :=
  if jsStartsWith callId "CA" || jsStartsWith callId "sim_twilio_" then
    (Twilio.getCallStatus callId now).map Sum.inl
  else
    (Exotel.getCallStatus callId now).map Sum.inr

/-- The error document `/api/call/flow` sends when no audio URL is
given. -/
def flowErrorXml : String :=
  "<?xml version=\"1.0\" encoding=\"UTF-8\"?>\n<Response>\n    <Say voice=\"woman\">Error: No audio URL provided.</Say>\n</Response>"

/-- `GET /api/call/flow`: a missing or empty (falsy) `audio` query
parameter yields HTTP 400 with the spoken error document; otherwise the
ExoML document embedding the URL. -/
def callFlow (audio : Option String) : Nat × String :=
  match audio with
  | none => (400, flowErrorXml)
  | some url => if url = "" then (400, flowErrorXml)
                else (200, Exotel.generateCallFlowXML url)

/-- `maxAgeHours` as computed by `GET /api/voice/cleanup`:
`parseInt(req.query.hours) || 24`, so a missing, non-numeric or zero
value all fall back to 24. -/
def cleanupHours (hours : Option String) : Int :=
  match hours with
  | none => 24
  | some s =>
    match parseIntJS s with
    | none => 24
    | some n => if n = 0 then 24 else n

/-- `GET /api/voice/cleanup`: run the sweep with the parsed threshold;
the route itself always answers `success: true` because the sweep
absorbs its own errors.  Returns the response flag and the surviving
files. -/
def cleanup (hours : Option String) (files : List ElevenLabs.FileEnt)
    (now : Int) (fsOk : String → Bool) : Bool × List ElevenLabs.FileEnt :=
  (true, ElevenLabs.cleanupOldFiles (cleanupHours hours) now fsOk files)

end Routes

/-! ## Auxiliary notions used by the claims -/

/-- Substring test on character lists (used to state that a document
contains a diagnostic message). -/
def containsSub (pat l : List Char) : Bool :=
  l.tails.any (fun t => pat.isPrefixOf t)

/-- Position of a primary-adapter simulated status in its ordered stage
list queued → ringing → in-progress → completed. -/
def twStageIdx : String → Nat
  | "ringing" => 1
  | "in-progress" => 2
  | "completed" => 3
  | _ => 0

/-- Position of a secondary-adapter simulated status in its ordered
stage list initiated → ringing → answered → in-progress → completed. -/
def exStageIdx : String → Nat
  | "ringing" => 1
  | "answered" => 2
  | "in-progress" => 3
  | "completed" => 4
  | _ => 0

/-- A `sim_twilio_` simulated identifier starts with that tag. -/
theorem simCallId_starts_sim_twilio (ts : Nat) (rand : String) :
    jsStartsWith (Twilio.simCallId ts rand) "sim_twilio_" = true := by
  simp [jsStartsWith, Twilio.simCallId, String.data_append, List.isPrefixOf]

/-- A `sim_twilio_` simulated identifier does not start with `CA`. -/
theorem simCallId_not_starts_CA (ts : Nat) (rand : String) :
    jsStartsWith (Twilio.simCallId ts rand) "CA" = false := by
  simp [jsStartsWith, Twilio.simCallId, String.data_append, List.isPrefixOf]

/-! ## Claim theorems -/

/-- Claim C1, counterexample.  In the unconfigured environment the
primary adapter `placeCallWithText` simulated path produces a call id
of the form `sim_<timestamp>_<random>`, which does not match the
`sim_twilio_` prefix pattern the claim assigns to the primary adapter
simulated path. -/
theorem placeCallWithText_sim_id_not_twilio_prefixed :
    (Twilio.placeCallWithText false none "hello" "9876543210" 0 "x").call_id
      = some "sim_0_x" ∧
    jsStartsWith "sim_0_x" "sim_twilio_" = false := by
  constructor
  · decide
  · decide

/-- Claim C1, amended: in an unconfigured environment every placement
succeeds; the secondary adapter result carries `simulation: true` (the
primary response type has no such field); the primary `placeCall`
simulated id is `sim_twilio_<ts>_<rand>` while both the primary
`placeCallWithText` and the secondary `placeCall` simulated ids are
`sim_<ts>_<rand>`. -/
theorem unconfigured_placement_shapes (ts : Nat) (rand text toNum : String)
    (remT : Option String) (remE : Option (String × String))
    (reqT : Twilio.TwilioCallRequest) (reqE : Exotel.CallRequest) :
    (Twilio.placeCall false remT ts rand reqT).success = true ∧
    (Twilio.placeCall false remT ts rand reqT).call_id
      = some ("sim_twilio_" ++ Nat.repr ts ++ "_" ++ rand) ∧
    (Twilio.placeCallWithText false remT text toNum ts rand).success = true ∧
    (Twilio.placeCallWithText false remT text toNum ts rand).call_id
      = some ("sim_" ++ Nat.repr ts ++ "_" ++ rand) ∧
    (Exotel.placeCall false remE ts rand reqE).success = true ∧
    (Exotel.placeCall false remE ts rand reqE).simulation = some true ∧
    (Exotel.placeCall false remE ts rand reqE).call_id
      = some ("sim_" ++ Nat.repr ts ++ "_" ++ rand) := by
  simp [Twilio.placeCall, Twilio.simulateCall, Twilio.simCallId,
    Twilio.placeCallWithText, Twilio.simulateCallWithText,
    Exotel.placeCall, Exotel.simulateCall, Exotel.simCallId]

/-- Claim C2: status lookup routes deterministically by identifier
prefix (CA or sim_twilio_ to the primary adapter, everything else to
the secondary), and when the owning adapter does not recognize the
identifier shape the lookup yields `none`, which the route turns into
HTTP 404 rather than a fabricated status. -/
theorem status_lookup_routing (callId : String) (now : Int) :
    ((jsStartsWith callId "CA" = true ∨ jsStartsWith callId "sim_twilio_" = true) →
      Routes.getStatus callId now = (Twilio.getCallStatus callId now).map Sum.inl) ∧
    (jsStartsWith callId "CA" = false → jsStartsWith callId "sim_twilio_" = false →
      Routes.getStatus callId now = (Exotel.getCallStatus callId now).map Sum.inr) ∧
    (jsStartsWith callId "CA" = true → jsStartsWith callId "sim_twilio_" = false →
      Routes.getStatus callId now = none) ∧
    (jsStartsWith callId "CA" = false → jsStartsWith callId "sim_twilio_" = false →
      Exotel.simIdTimestamp callId = none →
      Routes.getStatus callId now = none) := by
  refine ⟨?_, ?_, ?_, ?_⟩
  · rintro (h | h) <;> simp [Routes.getStatus, h]
  · intro h₁ h₂
    simp [Routes.getStatus, h₁, h₂]
  · intro h₁ h₂
    simp [Routes.getStatus, h₁, h₂, Twilio.getCallStatus,
      Twilio.getSimulatedCallStatus]
  · intro h₁ h₂ h₃
    simp [Routes.getStatus, h₁, h₂, Exotel.getCallStatus,
      Exotel.getSimulatedCallStatus, h₃]

/-- Claim C2, witness: a call id of neither known shape is answered
with not-found. -/
theorem status_lookup_routing_witness :
    Routes.getStatus "unknown-id" 0 = none :=
  (status_lookup_routing "unknown-id" 0).2.2.2 (by decide) (by decide) (by decide)

/-- Claim C4: for a simulated primary-adapter call id embedding
creation timestamp `ts`, the status derived at time `now` is `queued`
below 2s of elapsed time, `ringing` between 2s and 6s, `in-progress`
between 6s and 8s, and `completed` past 8s, with the whole elapsed
seconds as duration only once completed. -/
theorem twilio_sim_status_stages (callId : String) (ts now : Int)
    (hpre : jsStartsWith callId "sim_twilio_" = true)
    (hts : Twilio.simIdTimestamp callId = some ts) :
    ∃ st, Twilio.getCallStatus callId now = some st ∧
      (now - ts < 2000 → st.status = "queued" ∧ st.duration = none) ∧
      (2000 < now - ts ∧ now - ts ≤ 6000 → st.status = "ringing" ∧ st.duration = none) ∧
      (6000 < now - ts ∧ now - ts ≤ 8000 →
        st.status = "in-progress" ∧ st.duration = none) ∧
      (8000 < now - ts →
        st.status = "completed" ∧ st.duration = some ((now - ts) / 1000)) := by
  have hEq : Twilio.getCallStatus callId now =
      some { call_id := callId, status := Twilio.statusOfElapsed (now - ts),
             duration := if Twilio.statusOfElapsed (now - ts) = "completed"
                         then some ((now - ts) / 1000) else none,
             direction := some "outbound-api",
             fromNumber := some "+14722138384",
             toNumber := some "+919024266007" } := by
    simp [Twilio.getCallStatus, Twilio.getSimulatedCallStatus, hpre, hts]
  refine ⟨_, hEq, ?_, ?_, ?_, ?_⟩
  · intro h
    have h2 : ¬(now - ts > 2000) := by omega
    have h6 : ¬(now - ts > 6000) := by omega
    have h8 : ¬(now - ts > 8000) := by omega
    simp [Twilio.statusOfElapsed, h2, h6, h8]
  · rintro ⟨ha, hb⟩
    have h2 : now - ts > 2000 := by omega
    have h6 : ¬(now - ts > 6000) := by omega
    have h8 : ¬(now - ts > 8000) := by omega
    simp [Twilio.statusOfElapsed, h2, h6, h8]
  · rintro ⟨ha, hb⟩
    have h6 : now - ts > 6000 := by omega
    have h8 : ¬(now - ts > 8000) := by omega
    simp [Twilio.statusOfElapsed, h6, h8]
  · intro h
    have h8 : now - ts > 8000 := by omega
    simp [Twilio.statusOfElapsed, h8]

/-- Claim C4, witness: a query 1.5 simulated seconds after creation is
`queued` with no duration, and one 9 simulated seconds after creation
is `completed` with duration 9. -/
theorem twilio_sim_status_stages_witness :
    (∃ st, Twilio.getCallStatus "sim_twilio_1000_ab" 2500 = some st ∧
      st.status = "queued" ∧ st.duration = none) ∧
    (∃ st, Twilio.getCallStatus "sim_twilio_1000_ab" 10000 = some st ∧
      st.status = "completed" ∧ st.duration = some 9) := by
  constructor
  · obtain ⟨st, h₀, h₁, _, _, _⟩ :=
      twilio_sim_status_stages "sim_twilio_1000_ab" 1000 2500 (by decide) (by decide)
    exact ⟨st, h₀, h₁ (by norm_num)⟩
  · obtain ⟨st, h₀, _, _, _, h₄⟩ :=
      twilio_sim_status_stages "sim_twilio_1000_ab" 1000 10000 (by decide) (by decide)
    obtain ⟨hs, hd⟩ := h₄ (by norm_num)
    exact ⟨st, h₀, hs, by rw [hd]; norm_num⟩

/-- Claim C10: a secondary-adapter simulated status always reports
`start_time` as the embedded creation timestamp plus 5 seconds, even
before the simulated call is answered, while `end_time` (creation plus
15 seconds) and `duration` (whole seconds of elapsed minus 5s) are
present exactly when elapsed time exceeds 15 seconds. -/
theorem exotel_sim_status_times (callId : String) (ts now : Int)
    (hts : Exotel.simIdTimestamp callId = some ts) :
    ∃ st, Exotel.getCallStatus callId now = some st ∧
      st.start_time = some (ts + 5000) ∧
      (15000 < now - ts →
        st.end_time = some (ts + 15000) ∧
        st.duration = some ((now - ts - 5000) / 1000)) ∧
      (now - ts ≤ 15000 → st.end_time = none ∧ st.duration = none) := by
  have hEq : Exotel.getCallStatus callId now =
      some { call_id := callId, status := Exotel.statusOfElapsed (now - ts),
             duration := if 15000 < now - ts
                         then some ((now - ts - 5000) / 1000) else none,
             start_time := some (ts + 5000),
             end_time := if 15000 < now - ts then some (ts + 15000) else none } := by
    simp [Exotel.getCallStatus, Exotel.getSimulatedCallStatus, hts]
  refine ⟨_, hEq, by simp, ?_, ?_⟩
  · intro h
    simp [h]
  · intro h
    have h15 : ¬(15000 < now - ts) := by omega
    simp [h15]

/-- Claim C10, witness: 2 simulated seconds in, `start_time` is already
creation+5s with no `end_time`; 20 simulated seconds in, `end_time` is
creation+15s and the duration is 15 whole seconds. -/
theorem exotel_sim_status_times_witness :
    (∃ st, Exotel.getCallStatus "sim_1000_ab" 3000 = some st ∧
      st.start_time = some 6000 ∧ st.end_time = none) ∧
    (∃ st, Exotel.getCallStatus "sim_1000_ab" 21000 = some st ∧
      st.start_time = some 6000 ∧ st.end_time = some 16000 ∧
      st.duration = some 15) := by
  constructor
  · obtain ⟨st, h₀, h₁, _, h₃⟩ :=
      exotel_sim_status_times "sim_1000_ab" 1000 3000 (by decide)
    exact ⟨st, h₀, h₁, (h₃ (by norm_num)).1⟩
  · obtain ⟨st, h₀, h₁, h₂, _⟩ :=
      exotel_sim_status_times "sim_1000_ab" 1000 21000 (by decide)
    obtain ⟨he, hd⟩ := h₂ (by norm_num)
    exact ⟨st, h₀, h₁, he, by rw [hd]; norm_num⟩

/-- A string whose left factor has nonempty data has nonempty data. -/
theorem data_append_ne_nil (p x : String) (hp : p.data ≠ []) :
    (p ++ x).data ≠ [] := by
  rw [String.data_append]
  intro h
  exact hp (List.append_eq_nil.mp h).1

/-- A string with a left factor of nonempty data is not the empty
string. -/
theorem str_append_ne_empty (p x : String) (hp : p.data ≠ []) :
    ¬ p ++ x = "" := by
  intro h
  exact data_append_ne_nil p x hp (congrArg String.data h)

/-- Claim C7: for any text of at most 5000 characters and any voice id,
speech synthesis succeeds with a non-empty audio reference exactly
unless the stub write is the only remaining option and it fails too:
the result is successful iff the fully real path went through or the
mock write went through, and a successful result always carries a
filename and the matching `/audio/` URL. -/
theorem synthesize_always_degrades (cfg remoteOk writeRealOk writeMockOk : Bool)
    (uuidR uuidM : String) (tsR tsM : Nat) (req : ElevenLabs.TTSRequest)
    (hlen : req.text.length ≤ 5000) :
    (ElevenLabs.generateSpeech cfg remoteOk uuidR tsR writeRealOk
        uuidM tsM writeMockOk req).success
      = ((cfg && remoteOk && writeRealOk) || writeMockOk) ∧
    ((ElevenLabs.generateSpeech cfg remoteOk uuidR tsR writeRealOk
        uuidM tsM writeMockOk req).success = true →
      ∃ fn, (ElevenLabs.generateSpeech cfg remoteOk uuidR tsR writeRealOk
          uuidM tsM writeMockOk req).filename = some fn ∧
        fn ≠ "" ∧
        (ElevenLabs.generateSpeech cfg remoteOk uuidR tsR writeRealOk
          uuidM tsM writeMockOk req).audio_url = some ("/audio/" ++ fn)) := by
  cases cfg <;> cases remoteOk <;> cases writeRealOk <;> cases writeMockOk <;>
    simp [ElevenLabs.generateSpeech, ElevenLabs.generateMockAudio] <;>
    (apply str_append_ne_empty
     repeat first | apply data_append_ne_nil) <;> decide

/-- Claim C7, witness: with nothing configured and only the stub write
succeeding, synthesis still reports success with an `/audio/` URL. -/
theorem synthesize_always_degrades_witness :
    (ElevenLabs.generateSpeech false false "u" 1 false "m" 2 true
      { text := "Hello World", voice_id := "mock-voice-1" }).success = true := by
  have h := synthesize_always_degrades false false false true "u" "m" 1 2
    { text := "Hello World", voice_id := "mock-voice-1" } (by decide)
  rw [h.1]
  rfl

/-- Claim C9: the primary adapter absorbs every failure into a
successful simulated result, so the fallback guard of
`POST /api/call/place` never fires and, granted the provider contract
that real primary call SIDs start with `CA`, every response from the
route attributes provider `twilio` or `twilio_sim`, never `exotel`. -/
theorem place_route_never_uses_exotel (hasClient : Bool) (remoteT : Option String)
    (tsT tsE : Nat) (randT randE : String)
    (exCfg : Bool) (remoteE : Option (String × String))
    (toN audioU : String) (cid : Option String)
    (hCA : ∀ sid, remoteT = some sid → jsStartsWith sid "CA" = true) :
    (Twilio.placeCall hasClient remoteT tsT randT
      { to_number := toN, audio_url := audioU, caller_id := cid }).success = true ∧
    Routes.usesExotelFallback (Twilio.placeCall hasClient remoteT tsT randT
      { to_number := toN, audio_url := audioU, caller_id := cid }) = false ∧
    (Routes.placeCall hasClient remoteT tsT randT exCfg remoteE tsE randE
      toN audioU cid).success = true ∧
    ((Routes.placeCall hasClient remoteT tsT randT exCfg remoteE tsE randE
        toN audioU cid).provider = some "twilio" ∨
     (Routes.placeCall hasClient remoteT tsT randT exCfg remoteE tsE randE
        toN audioU cid).provider = some "twilio_sim") := by
  cases hasClient
  · refine ⟨rfl, rfl, rfl, Or.inr ?_⟩
    simp [Routes.placeCall, Routes.usesExotelFallback, Twilio.placeCall,
      Twilio.simulateCall, Routes.ofTwilio, Routes.providerOf,
      simCallId_starts_sim_twilio, simCallId_not_starts_CA]
  · cases hRem : remoteT with
    | none =>
      refine ⟨?_, ?_, ?_, Or.inr ?_⟩ <;>
        simp [Routes.placeCall, Routes.usesExotelFallback, Twilio.placeCall,
          Twilio.simulateCall, Routes.ofTwilio, Routes.providerOf, hRem,
          simCallId_starts_sim_twilio, simCallId_not_starts_CA]
    | some sid =>
      have hsid := hCA sid hRem
      refine ⟨?_, ?_, ?_, Or.inl ?_⟩ <;>
        simp [Routes.placeCall, Routes.usesExotelFallback, Twilio.placeCall,
          Routes.ofTwilio, Routes.providerOf, hRem, hsid]

/-- Claim C9, witness: in the unconfigured environment the route
reports success with provider `twilio_sim`. -/
theorem place_route_never_uses_exotel_witness :
    (Routes.placeCall false none 5 "ab" false none 7 "cd"
      "9876543210" "/audio/x.mp3" none).success = true ∧
    (Routes.placeCall false none 5 "ab" false none 7 "cd"
      "9876543210" "/audio/x.mp3" none).provider = some "twilio_sim" := by
  have h := place_route_never_uses_exotel false none 5 7 "ab" "cd" false none
    "9876543210" "/audio/x.mp3" none (fun sid h => by cases h)
  exact ⟨h.2.2.1, h.2.2.2.resolve_left (by decide)⟩

/-- When every per-file filesystem operation succeeds, the cleanup
sweep retains exactly the files not strictly older than the threshold. -/
theorem cleanupOldFiles_eq_filter (h now : Int) (fsOk : String → Bool) :
    ∀ files : List ElevenLabs.FileEnt, (∀ f ∈ files, fsOk f.name = true) →
      ElevenLabs.cleanupOldFiles h now fsOk files
        = files.filter (fun f => decide (now - f.mtime ≤ h * 3600000))
  | [], _ => rfl
  | f :: rest, hok => by
    have hf : fsOk f.name = true := hok f (List.mem_cons_self f rest)
    have ih := cleanupOldFiles_eq_filter h now fsOk rest
      (fun g hg => hok g (List.mem_cons_of_mem f hg))
    by_cases hold : now - f.mtime > h * 3600000
    · simp only [ElevenLabs.cleanupOldFiles, hf, if_pos hold, ih,
        List.filter_cons, Bool.not_true, Bool.false_eq_true, if_false]
      rw [if_neg (by simp; omega)]
    · simp only [ElevenLabs.cleanupOldFiles, hf, if_neg hold, ih,
        List.filter_cons, Bool.not_true, Bool.false_eq_true, if_false]
      rw [if_pos (by simp; omega)]

/-- Claim C3, counterexample: `GET /api/voice/cleanup?hours=0` does not
remove every audio file — a file one hour old survives, while the route
still answers `success: true`, because `parseInt('0') || 24` turns the
requested threshold 0 into 24. -/
theorem cleanup_hours_zero_keeps_fresh_file :
    Routes.cleanup (some "0") [{ name := "a.mp3", mtime := 0 }] 3600000
        (fun _ => true)
      = (true, [{ name := "a.mp3", mtime := 0 }]) := by
  decide

/-- Claim C3, amended: a requested threshold of 0 hours is replaced by
the default 24 (the query value is combined with the default by JS
truthiness), so `hours=0` cleans with a 24-hour threshold; the route
always answers `success: true`; and with the parsed threshold `h`, when
every per-file deletion succeeds the sweep removes exactly the files
strictly older than `h` hours. -/
theorem cleanup_threshold_behavior (q : Option String)
    (files : List ElevenLabs.FileEnt) (now : Int) (fsOk : String → Bool)
    (hok : ∀ f ∈ files, fsOk f.name = true) :
    Routes.cleanupHours (some "0") = 24 ∧
    (Routes.cleanup q files now fsOk).1 = true ∧
    (Routes.cleanup q files now fsOk).2
      = files.filter
          (fun f => decide (now - f.mtime ≤ Routes.cleanupHours q * 3600000)) := by
  refine ⟨by decide, rfl, ?_⟩
  exact cleanupOldFiles_eq_filter (Routes.cleanupHours q) now fsOk files hok

/-- Claim C3, witness: with threshold 1 hour, a two-hour-old file is
removed and a half-hour-old file survives. -/
theorem cleanup_threshold_behavior_witness :
    (Routes.cleanup (some "1") [{ name := "old.mp3", mtime := 0 },
        { name := "new.mp3", mtime := 5400000 }] 7200000 (fun _ => true)).2
      = [{ name := "new.mp3", mtime := 5400000 }] := by
  rw [(cleanup_threshold_behavior (some "1")
    [{ name := "old.mp3", mtime := 0 }, { name := "new.mp3", mtime := 5400000 }]
    7200000 (fun _ => true) (fun f _ => rfl)).2.2]
  decide

/-- The primary-adapter stage index is monotone in elapsed time. -/
theorem twStageIdx_statusOfElapsed_mono {e₁ e₂ : Int} (h : e₁ ≤ e₂) :
    twStageIdx (Twilio.statusOfElapsed e₁) ≤ twStageIdx (Twilio.statusOfElapsed e₂) := by
  unfold Twilio.statusOfElapsed
  split_ifs <;> first | decide | omega

/-- The secondary-adapter stage index is monotone in elapsed time. -/
theorem exStageIdx_statusOfElapsed_mono {e₁ e₂ : Int} (h : e₁ ≤ e₂) :
    exStageIdx (Exotel.statusOfElapsed e₁) ≤ exStageIdx (Exotel.statusOfElapsed e₂) := by
  unfold Exotel.statusOfElapsed
  split_ifs <;> first | decide | omega

/-- The primary-adapter simulated status is terminal exactly past 8s. -/
theorem twStatus_completed_iff (e : Int) :
    Twilio.statusOfElapsed e = "completed" ↔ 8000 < e := by
  unfold Twilio.statusOfElapsed
  split_ifs <;> simp_all

/-- The secondary-adapter simulated status is terminal exactly past 15s. -/
theorem exStatus_completed_iff (e : Int) :
    Exotel.statusOfElapsed e = "completed" ↔ 15000 < e := by
  unfold Exotel.statusOfElapsed
  split_ifs <;> simp_all

/-- Claim C8: for simulated call ids of both adapters, the derived
status walks the ordered stage list monotonically as elapsed time
grows, and is the terminal `completed` exactly once elapsed time passes
the final threshold, hence stable under re-query. -/
theorem sim_status_monotone (idT idE : String) (tsT tsE now₁ now₂ : Int)
    (hpre : jsStartsWith idT "sim_twilio_" = true)
    (hT : Twilio.simIdTimestamp idT = some tsT)
    (hE : Exotel.simIdTimestamp idE = some tsE)
    (h12 : now₁ ≤ now₂) :
    (∃ s₁ s₂, Twilio.getCallStatus idT now₁ = some s₁ ∧
      Twilio.getCallStatus idT now₂ = some s₂ ∧
      twStageIdx s₁.status ≤ twStageIdx s₂.status ∧
      (s₂.status = "completed" ↔ 8000 < now₂ - tsT)) ∧
    (∃ s₁ s₂, Exotel.getCallStatus idE now₁ = some s₁ ∧
      Exotel.getCallStatus idE now₂ = some s₂ ∧
      exStageIdx s₁.status ≤ exStageIdx s₂.status ∧
      (s₂.status = "completed" ↔ 15000 < now₂ - tsE)) := by
  have hTEq : ∀ n : Int, Twilio.getCallStatus idT n =
      some { call_id := idT, status := Twilio.statusOfElapsed (n - tsT),
             duration := if Twilio.statusOfElapsed (n - tsT) = "completed"
                         then some ((n - tsT) / 1000) else none,
             direction := some "outbound-api",
             fromNumber := some "+14722138384",
             toNumber := some "+919024266007" } := fun n => by
    simp [Twilio.getCallStatus, Twilio.getSimulatedCallStatus, hpre, hT]
  have hEEq : ∀ n : Int, Exotel.getCallStatus idE n =
      some { call_id := idE, status := Exotel.statusOfElapsed (n - tsE),
             duration := if 15000 < n - tsE
                         then some ((n - tsE - 5000) / 1000) else none,
             start_time := some (tsE + 5000),
             end_time := if 15000 < n - tsE then some (tsE + 15000) else none } :=
    fun n => by
    simp [Exotel.getCallStatus, Exotel.getSimulatedCallStatus, hE]
  constructor
  · refine ⟨_, _, hTEq now₁, hTEq now₂, ?_, ?_⟩
    · exact twStageIdx_statusOfElapsed_mono (by omega)
    · exact twStatus_completed_iff (now₂ - tsT)
  · refine ⟨_, _, hEEq now₁, hEEq now₂, ?_, ?_⟩
    · exact exStageIdx_statusOfElapsed_mono (by omega)
    · exact exStatus_completed_iff (now₂ - tsE)

/-- Claim C8, witness: between 3s and 20s of elapsed time both
adapters advance, and at 20s both are completed. -/
theorem sim_status_monotone_witness :
    ∃ s₁ s₂ e₁ e₂,
      Twilio.getCallStatus "sim_twilio_0_x" 3000 = some s₁ ∧
      Twilio.getCallStatus "sim_twilio_0_x" 20000 = some s₂ ∧
      twStageIdx s₁.status ≤ twStageIdx s₂.status ∧ s₂.status = "completed" ∧
      Exotel.getCallStatus "sim_0_x" 3000 = some e₁ ∧
      Exotel.getCallStatus "sim_0_x" 20000 = some e₂ ∧
      exStageIdx e₁.status ≤ exStageIdx e₂.status ∧ e₂.status = "completed" := by
  obtain ⟨⟨s₁, s₂, hs₁, hs₂, hsm, hsc⟩, ⟨e₁, e₂, he₁, he₂, hem, hec⟩⟩ :=
    sim_status_monotone "sim_twilio_0_x" "sim_0_x" 0 0 3000 20000
      (by decide) (by decide) (by decide) (by norm_num)
  exact ⟨s₁, s₂, e₁, e₂, hs₁, hs₂, hsm, hsc.mpr (by norm_num),
    he₁, he₂, hem, hec.mpr (by norm_num)⟩

/-- Every character surviving `dedupSpaces` was in the input. -/
theorem mem_dedupSpaces : ∀ (l : List Char) (c : Char),
    c ∈ Twilio.dedupSpaces l → c ∈ l
  | [], _, h => h
  | [_], _, h => h
  | a :: b :: rest, c, h => by
    unfold Twilio.dedupSpaces at h
    split at h
    · exact List.mem_cons_of_mem a (mem_dedupSpaces (b :: rest) c h)
    · rcases List.mem_cons.mp h with rfl | h'
      · exact List.mem_cons_self _ _
      · exact List.mem_cons_of_mem a (mem_dedupSpaces (b :: rest) c h')

/-- `dedupSpaces` only starts with a space if its input did. -/
theorem dedupSpaces_head_space : ∀ (l : List Char) (a : Char),
    (Twilio.dedupSpaces (a :: l)).head? = some ' ' → a = ' '
  | [], a, h => by simpa [Twilio.dedupSpaces] using h
  | b :: r, a, h => by
    unfold Twilio.dedupSpaces at h
    split at h
    · rename_i hc
      simp only [Bool.and_eq_true, decide_eq_true_eq] at hc
      exact hc.1
    · simpa using h

/-- `dedupSpaces` leaves no two adjacent spaces. -/
theorem chain'_dedupSpaces : ∀ l : List Char,
    List.Chain' (fun x y => ¬(x = ' ' ∧ y = ' ')) (Twilio.dedupSpaces l)
  | [] => List.chain'_nil
  | [a] => List.chain'_singleton a
  | a :: b :: rest => by
    unfold Twilio.dedupSpaces
    split
    · exact chain'_dedupSpaces (b :: rest)
    · rename_i hc
      simp only [Bool.and_eq_true, decide_eq_true_eq, not_and] at hc
      refine List.chain'_cons'.mpr ⟨?_, chain'_dedupSpaces (b :: rest)⟩
      intro y hy hay
      have hb : b = ' ' := dedupSpaces_head_space rest b (by
        rw [Option.mem_def] at hy
        rw [hy, hay.2])
      exact hc hay.1 hb

/-- `dropWhile` preserves the adjacent-pair invariant. -/
theorem chain'_dropWhile {R : Char → Char → Prop} (p : Char → Bool) :
    ∀ l : List Char, List.Chain' R l → List.Chain' R (l.dropWhile p)
  | [], h => h
  | a :: t, h => by
    rw [List.dropWhile]
    split
    · exact chain'_dropWhile p t (List.Chain'.tail h)
    · exact h

/-- Reversal preserves the (symmetric) no-two-adjacent-spaces
invariant. -/
theorem chain'_reverse_spaces (l : List Char)
    (h : List.Chain' (fun x y => ¬(x = ' ' ∧ y = ' ')) l) :
    List.Chain' (fun x y => ¬(x = ' ' ∧ y = ' ')) l.reverse := by
  rw [List.chain'_reverse]
  exact List.Chain'.imp (fun a b hab => fun hba => hab ⟨hba.2, hba.1⟩) h

/-- The cleaned text of `generateCustomTwiML` has no two adjacent
spaces. -/
theorem chain'_cleanTextL (l : List Char) :
    List.Chain' (fun x y => ¬(x = ' ' ∧ y = ' ')) (Twilio.cleanTextL l) := by
  unfold Twilio.cleanTextL Twilio.trimSpaces
  apply chain'_reverse_spaces
  apply chain'_dropWhile
  apply chain'_reverse_spaces
  apply chain'_dropWhile
  exact chain'_dedupSpaces _

/-- Every character surviving `trimSpaces` was in the input. -/
theorem mem_trimSpaces (l : List Char) (c : Char)
    (h : c ∈ Twilio.trimSpaces l) : c ∈ l := by
  unfold Twilio.trimSpaces at h
  rw [List.mem_reverse] at h
  have h₁ := (List.dropWhile_sublist _).mem h
  rw [List.mem_reverse] at h₁
  exact (List.dropWhile_sublist _).mem h₁

/-- Every character of the cleaned text is markup-safe: none of `<`,
`>`, `&` survives, and any whitespace character is a plain space. -/
theorem mem_cleanTextL (l : List Char) (c : Char)
    (h : c ∈ Twilio.cleanTextL l) :
    (c ≠ '<' ∧ c ≠ '>' ∧ c ≠ '&') ∧ (Twilio.isJsWs c = true → c = ' ') := by
  unfold Twilio.cleanTextL at h
  have h₁ := mem_dedupSpaces _ c (mem_trimSpaces _ c h)
  rw [List.mem_map] at h₁
  obtain ⟨d, hd, hdc⟩ := h₁
  rw [List.mem_map] at hd
  obtain ⟨e, he, hed⟩ := hd
  have hq := List.of_mem_filter he
  simp only [Bool.not_eq_true', Bool.or_eq_false_iff, decide_eq_false_iff_not] at hq
  by_cases hws : Twilio.isJsWs d = true
  · rw [if_pos hws] at hdc
    subst hdc
    exact ⟨by decide, fun _ => rfl⟩
  · rw [if_neg hws] at hdc
    subst hdc
    by_cases hnl : e = '\n'
    · rw [if_pos hnl] at hed
      subst hed
      exact absurd (by decide : Twilio.isJsWs ' ' = true) hws
    · rw [if_neg hnl] at hed
      subst hed
      exact ⟨⟨hq.1.1, hq.1.2, hq.2⟩, fun hw => absurd hw hws⟩

/-- Claim C5, counterexample: the secondary call-flow generator does
not strip `&` from the user-supplied audio URL — the emitted document
still contains the ampersand (the fixed markup contains none). -/
theorem callFlowXML_keeps_ampersand :
    '&' ∈ (Exotel.generateCallFlowXML "&").data := by
  decide

/-- Claim C5, amended: only the primary-adapter custom-text generator
sanitizes user text — it strips `<`, `>`, `&`, collapses
whitespace/newlines to single spaces and embeds the result between
fixed markup; the secondary generator embeds its audio URL verbatim;
and a missing or empty audio parameter makes the flow route emit the
error-flavored document with a spoken diagnostic instead of a document
with an empty play target. -/
theorem callflow_sanitization (t u : String) :
    (∀ c ∈ (Twilio.cleanText t).data,
      (c ≠ '<' ∧ c ≠ '>' ∧ c ≠ '&') ∧ (Twilio.isJsWs c = true → c = ' ')) ∧
    List.Chain' (fun x y => ¬(x = ' ' ∧ y = ' ')) (Twilio.cleanText t).data ∧
    Twilio.generateCustomTwiML t
      = Twilio.customTwiMLPre ++ Twilio.cleanText t ++ Twilio.customTwiMLPost ∧
    Exotel.generateCallFlowXML u
      = Exotel.callFlowXMLIntro ++ u ++ Exotel.callFlowXMLOutro ∧
    Routes.callFlow none = (400, Routes.flowErrorXml) ∧
    Routes.callFlow (some "") = (400, Routes.flowErrorXml) ∧
    containsSub "Error: No audio URL provided.".data Routes.flowErrorXml.data
      = true := by
  refine ⟨fun c hc => mem_cleanTextL t.data c hc, chain'_cleanTextL t.data,
    rfl, rfl, rfl, rfl, by decide⟩

/-- Claim C5, witness: the ampersand of a concrete input does not
survive the primary-adapter cleaning. -/
theorem callflow_sanitization_witness :
    ¬ '&' ∈ (Twilio.cleanText "a & b").data :=
  fun h => (((callflow_sanitization "a & b" "u").1 '&' h).1).2.2 rfl

/-- A digit is not one of the characters the primary formatter strips. -/
theorem digit_not_stripped (c : Char) (h : c.isDigit = true) :
    Twilio.isStrippedChar c = false := by
  by_contra hs
  rw [Bool.not_eq_false] at hs
  simp only [Twilio.isStrippedChar, Bool.or_eq_true, decide_eq_true_eq] at hs
  rcases hs with ((((((((hc | hc) | hc) | hc) | hc) | hc) | hc) | hc) | hc) <;>
    subst hc <;> exact absurd h (by decide)

/-- A digit is not a plus sign (as a boolean equality test). -/
theorem digit_beq_plus (c : Char) (h : c.isDigit = true) :
    ('+' == c) = false := by
  rw [beq_eq_false_iff_ne]
  intro he
  rw [← he] at h
  exact absurd h (by decide)

/-- An all-digit list passes the digit filter unchanged. -/
theorem filter_digits_id (l : List Char) (h : l.all Char.isDigit = true) :
    l.filter Char.isDigit = l :=
  List.filter_eq_self.mpr (List.all_eq_true.mp h)

/-- An all-digit list passes the strip filter unchanged. -/
theorem filter_not_stripped_id (l : List Char) (h : l.all Char.isDigit = true) :
    l.filter (fun c => !(Twilio.isStrippedChar c)) = l :=
  List.filter_eq_self.mpr (fun a ha => by
    rw [digit_not_stripped a (List.all_eq_true.mp h a ha)]
    rfl)

/-- Rebuilding a string from prepended data is string append. -/
theorem mk_data_cons_plus (d : String) :
    String.mk ('+' :: d.data) = "+" ++ d := by
  have h : ("+" ++ d).data = '+' :: d.data := by
    rw [String.data_append]
    rfl
  rw [← h]

/-- Claim C6, counterexample: the secondary formatter does not return
an already-formatted `+`-prefixed number unchanged when it carries
exactly ten digits — it inserts another country code. -/
theorem exotel_format_not_idempotent_on_plus :
    Exotel.formatPhoneNumber "+1234567890" = "+911234567890" ∧
    ("+911234567890" : String) ≠ "+1234567890" := by
  constructor <;> decide

/-- Claim C6, amended: the primary formatter returns a `+`-prefixed
all-digit number unchanged; the secondary formatter returns a
`+`-prefixed all-digit number unchanged only when its digit count is
not exactly ten, and prepends the default country code `91` to any
ten-digit number, `+`-prefixed or bare; the primary formatter gives a
bare ten-digit number exactly one country-code prefix (`+91` for a
mobile-range leading digit, `+1` otherwise); and the secondary
formatter output always begins with `+`. -/
theorem phone_format_shapes :
    (∀ d : String, d.data.all Char.isDigit = true →
      Twilio.formatPhoneNumber ("+" ++ d) = "+" ++ d) ∧
    (∀ d : String, d.data.all Char.isDigit = true → d.length ≠ 10 →
      Exotel.formatPhoneNumber ("+" ++ d) = "+" ++ d) ∧
    (∀ d : String, d.data.all Char.isDigit = true → d.length = 10 →
      Exotel.formatPhoneNumber ("+" ++ d) = "+91" ++ d) ∧
    (∀ d : String, d.data.all Char.isDigit = true → d.length = 10 →
      Exotel.formatPhoneNumber d = "+91" ++ d) ∧
    (∀ (d : String) (c : Char) (r : List Char), d.data = c :: r →
      d.data.all Char.isDigit = true → d.length = 10 →
      Twilio.formatPhoneNumber d
        = if '6' ≤ c ∧ c ≤ '9' then "+91" ++ d else "+1" ++ d) ∧
    (∀ s : String, ∃ r, Exotel.formatPhoneNumber s = "+" ++ r) := by
  have hplus : ∀ d : String, ("+" ++ d).data = '+' :: d.data := fun d => by
    rw [String.data_append]
    rfl
  refine ⟨?_, ?_, ?_, ?_, ?_, ?_⟩
  · intro d hall
    unfold Twilio.formatPhoneNumber
    dsimp only
    rw [hplus d, List.filter_cons_of_pos (by decide),
      filter_not_stripped_id d.data hall, mk_data_cons_plus]
    have hstarts : jsStartsWith ("+" ++ d) "+" = true := by
      simp [jsStartsWith, hplus d, List.isPrefixOf]
    simp [hstarts]
  · intro d hall hlen
    unfold Exotel.formatPhoneNumber
    dsimp only
    rw [hplus d, List.filter_cons_of_neg (by decide),
      filter_digits_id d.data hall]
    have hlen' : ¬ (String.mk d.data).length = 10 := hlen
    simp [hlen']
  · intro d hall hlen
    unfold Exotel.formatPhoneNumber
    dsimp only
    rw [hplus d, List.filter_cons_of_neg (by decide),
      filter_digits_id d.data hall]
    have hlen' : (String.mk d.data).length = 10 := hlen
    simp only [hlen', if_true, if_pos]
    rw [show ("+91" : String) = "+" ++ "91" from rfl, String.append_assoc]
  · intro d hall hlen
    unfold Exotel.formatPhoneNumber
    dsimp only
    rw [filter_digits_id d.data hall]
    have hlen' : (String.mk d.data).length = 10 := hlen
    simp only [hlen', if_true, if_pos]
    rw [show ("+91" : String) = "+" ++ "91" from rfl, String.append_assoc]
  · intro d c r hd hall hlen
    have hc : c.isDigit = true :=
      List.all_eq_true.mp hall c (by rw [hd]; exact List.mem_cons_self c r)
    unfold Twilio.formatPhoneNumber
    dsimp only
    rw [filter_not_stripped_id d.data hall]
    have hnostart : jsStartsWith (String.mk d.data) "+" = false := by
      simp [jsStartsWith, hd, List.isPrefixOf, digit_beq_plus c hc]
    have hlen2 : ({ data := c :: r } : String).length = 10 := by
      rw [← hd]
      exact hlen
    rw [hnostart]
    simp only [Bool.false_eq_true, if_false, hd]
    split_ifs <;>
      first
        | (solve | rw [← hd])
        | (simp only [Bool.and_eq_true, decide_eq_true_eq] at *
           first
             | omega
             | tauto)
  · intro s
    exact ⟨_, rfl⟩

/-- Claim C6, witness: a canonical `+`-prefixed 12-digit number is a
fixed point of the primary formatter, and a bare ten-digit number gains
the default country code in the secondary formatter. -/
theorem phone_format_shapes_witness :
    Twilio.formatPhoneNumber ("+" ++ "919024266007") = "+" ++ "919024266007" ∧
    Exotel.formatPhoneNumber "9876543210" = "+91" ++ "9876543210" :=
  ⟨phone_format_shapes.1 "919024266007" (by decide),
   phone_format_shapes.2.2.2.1 "9876543210" (by decide) (by decide)⟩
